import Mathlib

/-!
Verification of the PDF→DOCX conversion orchestration of this repository
(src/generalised_converter.py, src/app.py).

The Python sources are shallowly embedded: external collaborators — the
`pdf2docx` rich converter, `pathlib` path manipulation, the filesystem and
the `psutil` memory query — are oracles supplied through environment
records, and a Python function that can let an exception escape is
modelled in `Except String`, where `Except.error msg` is an uncaught
exception carrying its message.
-/

namespace Pdf2Docx

/-- Outcome of the external `pdf2docx` calls `Converter(pdf_path)`,
`cv.convert(...)` and `cv.close()` performed inside the `try` block of
`PDFToDocxConverter.convert_single` (src/generalised_converter.py lines
88–104): either they all complete, or one of them raises a
`PermissionError`, or one of them raises some other exception whose
`str` is `msg`. -/
inductive ConvKind
| ok
| permissionError (msg : String)
| otherError (msg : String)
deriving DecidableEq

/-- Environment (oracle values of the external collaborators) for one call
to `PDFToDocxConverter.convert_single`.

* `preExists` — `os.path.exists` at the time of the input validation;
* `defaultOutput` — `str(Path(pdf_path).with_suffix('.docx'))`, the
  `pathlib` computation used when no output path is given;
* `preTryError` — `some msg` when the code run between the input check and
  the `try` block (the `Path.with_suffix` call or `os.makedirs`,
  src/generalised_converter.py lines 80–84) raises an exception, which
  then escapes `convert_single` uncaught;
* `convOutcome` — outcome of the `pdf2docx` conversion calls;
* `postExists`/`postSize` — `os.path.exists` / `os.path.getsize` (bytes)
  after the conversion calls returned. -/
structure ConvEnv where
  preExists : String → Bool
  defaultOutput : String → String
  preTryError : Option String
  convOutcome : ConvKind
  postExists : String → Bool
  postSize : String → Nat

/-- Message built at src/generalised_converter.py line 75. -/
def fileNotFoundMsg (pdf_path : String) : String :=
  "❌ File not found: " ++ pdf_path

/-- Message built at src/generalised_converter.py line 122. -/
def permissionDeniedMsg (output_path : String) : String :=
  " Permission denied: " ++ (output_path ++ ". Close the file if it\x27s open.")

/-- Message built at src/generalised_converter.py line 128. -/
def conversionFailedMsg (detail : String) : String :=
  " Conversion failed: " ++ detail

/-- The `str` of the `FileNotFoundError` raised by
`os.path.getsize(output_path)` (src/generalised_converter.py line 108)
when the conversion calls returned without creating the output file. -/
def getsizeMissingMsg (p : String) : String :=
  "[Errno 2] No such file or directory: \x27" ++ p ++ "\x27"

namespace PDFToDocxConverter

/-- Embedding of `PDFToDocxConverter.convert_single`
(src/generalised_converter.py lines 53–132).  The `start_page`,
`end_page` and `verbose` parameters only affect logging and the arguments
forwarded to the external converter, which the `convOutcome` oracle
absorbs, so they are not modelled.  `Except.error` models an exception
escaping the function (only possible from the code before the `try`
block); `Except.ok (success, s)` is the returned pair, where `s` is the
output path on success and the error message on failure.  Note the
success branch re-checks the filesystem: `os.path.getsize(output_path)`
at line 108 raises (caught by the generic handler at line 127) when the
output file does not exist, so `(True, output_path)` is only ever
returned when the output file exists. -/
def convert_single (env : ConvEnv) (pdf_path : String)
    (output_path : Option String) : Except String (Bool × String) :=
  if env.preExists pdf_path = false then
    .ok (false, fileNotFoundMsg pdf_path)
  else
    let out := output_path.getD (env.defaultOutput pdf_path)
    match env.preTryError with
    | some e => .error e
    | none =>
      match env.convOutcome with
      | .ok =>
        if env.postExists out = true then
          .ok (true, out)
        else
          .ok (false, conversionFailedMsg (getsizeMissingMsg out))
      | .permissionError _ => .ok (false, permissionDeniedMsg out)
      | .otherError m => .ok (false, conversionFailedMsg m)

end PDFToDocxConverter

/-- A string with a non-empty left component of an append is non-empty. -/
theorem append_ne_empty_left (a b : String) (ha : a.length ≠ 0) :
    a ++ b ≠ "" := by
  intro hab
  apply ha
  have h : (a ++ b).length = ("" : String).length := by rw [hab]
  rw [String.length_append] at h
  simp only [String.length_empty] at h
  omega

/-- C1: every pair returned by `convert_single` satisfies exactly one of:
success flag `true` together with an output path naming a file that
exists after the conversion, or success flag `false` together with a
non-empty error message. -/
theorem C1_convert_single_dichotomy (env : ConvEnv) (pdf_path : String)
    (output_path : Option String) (b : Bool) (s : String)
    (h : PDFToDocxConverter.convert_single env pdf_path output_path = .ok (b, s)) :
    Xor' (b = true ∧ env.postExists s = true) (b = false ∧ s ≠ "") := by
  simp only [PDFToDocxConverter.convert_single] at h
  split at h
  · -- input not found: (False, "❌ File not found: ...")
    simp only [Except.ok.injEq, Prod.mk.injEq] at h
    obtain ⟨hb, hs⟩ := h
    subst hb; subst hs
    refine Or.inr ⟨⟨rfl, append_ne_empty_left _ _ (by decide)⟩, ?_⟩
    rintro ⟨hcontra, -⟩
    exact absurd hcontra (by decide)
  · split at h
    · exact absurd h (by simp)
    · split at h
      · split at h
        · -- success: output file exists
          rename_i hpost
          simp only [Except.ok.injEq, Prod.mk.injEq] at h
          obtain ⟨hb, hs⟩ := h
          subst hb; subst hs
          refine Or.inl ⟨⟨rfl, hpost⟩, ?_⟩
          rintro ⟨hcontra, -⟩
          exact absurd hcontra (by decide)
        · -- getsize raised: (False, " Conversion failed: [Errno 2] ...")
          simp only [Except.ok.injEq, Prod.mk.injEq] at h
          obtain ⟨hb, hs⟩ := h
          subst hb; subst hs
          refine Or.inr ⟨⟨rfl, append_ne_empty_left _ _ (by decide)⟩, ?_⟩
          rintro ⟨hcontra, -⟩
          exact absurd hcontra (by decide)
      · -- PermissionError
        simp only [Except.ok.injEq, Prod.mk.injEq] at h
        obtain ⟨hb, hs⟩ := h
        subst hb; subst hs
        refine Or.inr ⟨⟨rfl, append_ne_empty_left _ _ (by decide)⟩, ?_⟩
        rintro ⟨hcontra, -⟩
        exact absurd hcontra (by decide)
      · -- other exception
        simp only [Except.ok.injEq, Prod.mk.injEq] at h
        obtain ⟨hb, hs⟩ := h
        subst hb; subst hs
        refine Or.inr ⟨⟨rfl, append_ne_empty_left _ _ (by decide)⟩, ?_⟩
        rintro ⟨hcontra, -⟩
        exact absurd hcontra (by decide)

/-- Environment with an existing input, a clean external conversion and an
existing output file, used to witness C1. -/
def envOk : ConvEnv where
  preExists := fun _ => true
  defaultOutput := fun p => p ++ ".docx"
  preTryError := none
  convOutcome := .ok
  postExists := fun _ => true
  postSize := fun _ => 2048

/-- Witness for C1 at a concrete successful conversion. -/
theorem C1_witness :
    Xor' (true = true ∧ envOk.postExists "a.docx" = true)
      (true = false ∧ "a.docx" ≠ "") :=
  C1_convert_single_dichotomy envOk "a.pdf" (some "a.docx") true "a.docx" rfl

/-- Environment whose input path does not exist, used to witness C5. -/
def envMissing : ConvEnv where
  preExists := fun _ => false
  defaultOutput := fun p => p ++ ".docx"
  preTryError := none
  convOutcome := .ok
  postExists := fun _ => true
  postSize := fun _ => 2048

/-- C5: when the input path does not exist, `convert_single` returns the
not-found failure immediately.  The environment `env` carries the entire
behaviour of the external converter and of the code after the input
check, and the result does not depend on any of it, so no conversion is
attempted; `convert_single` contains no retry loop, and this equation
shows the single evaluation yields the failure unconditionally. -/
theorem C5_not_found_fail_fast (env : ConvEnv) (pdf_path : String)
    (output_path : Option String) (h : env.preExists pdf_path = false) :
    PDFToDocxConverter.convert_single env pdf_path output_path
      = .ok (false, fileNotFoundMsg pdf_path) := by
  simp only [PDFToDocxConverter.convert_single, h, if_pos]

/-- Witness for C5 at a concrete missing input. -/
theorem C5_witness :
    PDFToDocxConverter.convert_single envMissing "ghost.pdf" none
      = .ok (false, fileNotFoundMsg "ghost.pdf") :=
  C5_not_found_fail_fast envMissing "ghost.pdf" none rfl

namespace PDFToDocxConverter

/-- Embedding of `PDFToDocxConverter.convert_with_ocr_fallback`
(src/generalised_converter.py lines 252–270).  It first runs
`convert_single`; on success it reads `os.path.getsize(result)` (the
output file exists whenever `convert_single` succeeds, so the query
returns `env.postSize result`), returns the pair early when the size
exceeds 1000 bytes, and otherwise falls through two log statements to
`return success, result`. -/
def convert_with_ocr_fallback (env : ConvEnv) (pdf_path : String)
    (output_path : Option String) : Except String (Bool × String) :=
  match convert_single env pdf_path output_path with
  | .error e => .error e
  | .ok (success, result) =>
    if success = true then
      if env.postSize result > 1000 then
        .ok (true, result)
      else
        .ok (success, result)
    else
      .ok (success, result)

end PDFToDocxConverter

/-- C9: `convert_with_ocr_fallback` returns exactly the pair produced by
`convert_single` on the same arguments; the small-output check only logs
a warning and never changes the outcome. -/
theorem C9_ocr_fallback_refines_convert_single (env : ConvEnv)
    (pdf_path : String) (output_path : Option String) :
    PDFToDocxConverter.convert_with_ocr_fallback env pdf_path output_path
      = PDFToDocxConverter.convert_single env pdf_path output_path := by
  unfold PDFToDocxConverter.convert_with_ocr_fallback
  split
  · rename_i e heq
    exact heq.symm
  · rename_i p success result heq
    split
    · rename_i hsucc
      subst hsucc
      split
      · exact heq.symm
      · exact heq.symm
    · exact heq.symm

/-- The `results` dictionary of `PDFToDocxConverter.convert_batch`
(src/generalised_converter.py line 177): success and failure counters
plus the error map, modelled as an insertion-ordered association list. -/
structure BatchReport where
  success : Nat
  failed : Nat
  errors : List (String × String)
deriving DecidableEq

/-- Environment for one call to `PDFToDocxConverter.convert_batch`.

* `folderExists` — `Path(input_folder).exists()`;
* `files` — names of the files matched by the glob at
  src/generalised_converter.py lines 159–162, in glob order;
* `multi_processing` — the converter's `multi_processing` flag;
* `single` — the outcome of `self.convert_single(...)` on each matched
  file (`Except.error` models an exception escaping `convert_single`). -/
structure BatchEnv where
  folderExists : Bool
  files : List String
  multi_processing : Bool
  single : String → Except String (Bool × String)

namespace PDFToDocxConverter

/-- Recording of one returned `(success, message)` pair into the report
(src/generalised_converter.py lines 202–206 and 222–226). -/
def recordPair (r : BatchReport) (filename : String) (res : Bool × String) :
    BatchReport :=
  if res.1 = true then
    { r with success := r.success + 1 }
  else
    { r with failed := r.failed + 1, errors := r.errors ++ [(filename, res.2)] }

/-- Recording of one future's outcome in the parallel branch
(src/generalised_converter.py lines 200–209): `future.result()` is
wrapped in `try/except Exception`, so an escaped exception is recorded
as that file's failure instead of propagating. -/
def recordCaught (r : BatchReport) (filename : String)
    (res : Except String (Bool × String)) : BatchReport :=
  match res with
  | .ok p => recordPair r filename p
  | .error e => { r with failed := r.failed + 1, errors := r.errors ++ [(filename, e)] }

/-- The parallel branch of `convert_batch` (src/generalised_converter.py
lines 180–209): every submitted conversion is collected through
`recordCaught`.  `as_completed` yields futures in a nondeterministic
order; the counters are order-independent, and the model collects in
submission order. -/
def parallelLoop (single : String → Except String (Bool × String))
    (files : List String) (r : BatchReport) : BatchReport :=
  files.foldl (fun acc f => recordCaught acc f (single f)) r

/-- The sequential branch of `convert_batch` (src/generalised_converter.py
lines 210–226): the call to `convert_single` is NOT wrapped in
`try/except` there, so an exception escaping it propagates out of
`convert_batch` (modelled by `Except.error`). -/
def seqLoop (single : String → Except String (Bool × String))
    (files : List String) (r : BatchReport) : Except String BatchReport :=
  match files with
  | [] => .ok r
  | f :: rest =>
    match single f with
    | .error e => .error e
    | .ok p => seqLoop single rest (recordPair r f p)

/-- Embedding of `PDFToDocxConverter.convert_batch`
(src/generalised_converter.py lines 134–231).  The returned Bool records
whether `output_path.mkdir(parents=True, exist_ok=True)` (line 172) was
reached, i.e. whether the output folder was touched.  The two early
returns at lines 154–156 and 164–166 happen before that call. -/
def convert_batch (env : BatchEnv) : Except String (BatchReport × Bool) :=
  if env.folderExists = false then
    .ok ({ success := 0, failed := 0, errors := [] }, false)
  else if env.files.isEmpty = true then
    .ok ({ success := 0, failed := 0, errors := [] }, false)
  else if env.multi_processing = true ∧ 1 < env.files.length then
    .ok (parallelLoop env.single env.files { success := 0, failed := 0, errors := [] }, true)
  else
    (seqLoop env.single env.files { success := 0, failed := 0, errors := [] }).map
      (fun r => (r, true))

end PDFToDocxConverter

/-- Every recorded future outcome adds exactly one to the counters. -/
theorem recordCaught_counts (r : BatchReport) (f : String)
    (res : Except String (Bool × String)) :
    (PDFToDocxConverter.recordCaught r f res).success
        + (PDFToDocxConverter.recordCaught r f res).failed
      = r.success + r.failed + 1 := by
  rcases res with e | ⟨b, s⟩
  · simp [PDFToDocxConverter.recordCaught]; omega
  · rcases b with _ | _ <;>
      simp [PDFToDocxConverter.recordCaught, PDFToDocxConverter.recordPair] <;> omega

/-- The parallel collection adds exactly one count per file. -/
theorem parallelLoop_counts (single : String → Except String (Bool × String))
    (files : List String) (r : BatchReport) :
    (PDFToDocxConverter.parallelLoop single files r).success
        + (PDFToDocxConverter.parallelLoop single files r).failed
      = r.success + r.failed + files.length := by
  induction files generalizing r with
  | nil => simp [PDFToDocxConverter.parallelLoop]
  | cons f rest ih =>
    have h := ih (PDFToDocxConverter.recordCaught r f (single f))
    simp only [PDFToDocxConverter.parallelLoop, List.foldl_cons] at h ⊢
    rw [h, recordCaught_counts]
    simp; omega

/-- Recording never removes an error entry. -/
theorem recordCaught_errors_mono (r : BatchReport) (f : String)
    (res : Except String (Bool × String)) (x : String × String)
    (hx : x ∈ r.errors) :
    x ∈ (PDFToDocxConverter.recordCaught r f res).errors := by
  rcases res with e | ⟨b, s⟩
  · simp [PDFToDocxConverter.recordCaught]; exact Or.inl hx
  · rcases b with _ | _
    · simp [PDFToDocxConverter.recordCaught, PDFToDocxConverter.recordPair]
      exact Or.inl hx
    · simpa [PDFToDocxConverter.recordCaught, PDFToDocxConverter.recordPair] using hx

/-- The parallel collection never removes an error entry. -/
theorem parallelLoop_errors_mono (single : String → Except String (Bool × String))
    (files : List String) (r : BatchReport) (x : String × String)
    (hx : x ∈ r.errors) :
    x ∈ (PDFToDocxConverter.parallelLoop single files r).errors := by
  induction files generalizing r with
  | nil => exact hx
  | cons f rest ih =>
    simp only [PDFToDocxConverter.parallelLoop, List.foldl_cons] at ih ⊢
    exact ih _ (recordCaught_errors_mono r f (single f) x hx)

/-- In the parallel collection, an exception escaping `convert_single` on
a matched file ends up recorded against that file's name. -/
theorem parallelLoop_records_escape
    (single : String → Except String (Bool × String))
    (files : List String) (r : BatchReport) (f e : String)
    (hf : f ∈ files) (he : single f = .error e) :
    (f, e) ∈ (PDFToDocxConverter.parallelLoop single files r).errors := by
  induction files generalizing r with
  | nil => cases hf
  | cons g rest ih =>
    simp only [PDFToDocxConverter.parallelLoop, List.foldl_cons] at ih ⊢
    rcases List.mem_cons.mp hf with rfl | hmem
    · apply parallelLoop_errors_mono
      rw [he]
      simp [PDFToDocxConverter.recordCaught]
    · exact ih _ hmem

/-- The sequential loop, when it returns normally, adds exactly one count
per file. -/
theorem seqLoop_counts (single : String → Except String (Bool × String))
    (files : List String) (r r' : BatchReport)
    (h : PDFToDocxConverter.seqLoop single files r = .ok r') :
    r'.success + r'.failed = r.success + r.failed + files.length := by
  induction files generalizing r with
  | nil =>
    simp only [PDFToDocxConverter.seqLoop, Except.ok.injEq] at h
    subst h; simp
  | cons f rest ih =>
    simp only [PDFToDocxConverter.seqLoop] at h
    rcases hs : single f with e | ⟨b, s⟩ <;> rw [hs] at h
    · cases h
    · have h2 := ih (PDFToDocxConverter.recordPair r f (b, s)) h
      have h3 : (PDFToDocxConverter.recordPair r f (b, s)).success
          + (PDFToDocxConverter.recordPair r f (b, s)).failed
          = r.success + r.failed + 1 := by
        rcases b with _ | _ <;> simp [PDFToDocxConverter.recordPair] <;> omega
      rw [h3] at h2
      simp only [List.length_cons]
      omega

/-- C2 (amended): whenever `convert_batch` returns a report, success +
failed equals the number of discovered files; and in the parallel branch
(`multi_processing` enabled with more than one file, the branch taken by
the configuration the module's own `main` constructs for batches) the
batch always returns normally and every exception escaping
`convert_single` is caught and recorded against that file's name.  (The
sequential branch propagates such an exception: see the
counterexample.) -/
theorem C2_batch_isolation (env : BatchEnv) (hf : env.folderExists = true) :
    (∀ r m, PDFToDocxConverter.convert_batch env = .ok (r, m) →
        r.success + r.failed = env.files.length)
    ∧ (env.multi_processing = true → 1 < env.files.length →
        PDFToDocxConverter.convert_batch env
          = .ok (PDFToDocxConverter.parallelLoop env.single env.files
              { success := 0, failed := 0, errors := [] }, true)
        ∧ ∀ f e, f ∈ env.files → env.single f = .error e →
            (f, e) ∈ (PDFToDocxConverter.parallelLoop env.single env.files
              { success := 0, failed := 0, errors := [] }).errors) := by
  constructor
  · intro r m h
    unfold PDFToDocxConverter.convert_batch at h
    rw [hf] at h
    simp only [Bool.true_eq_false, if_false] at h
    split at h
    · rename_i hempty
      simp only [Except.ok.injEq, Prod.mk.injEq] at h
      obtain ⟨hr, -⟩ := h
      subst hr
      simp [List.isEmpty_iff.mp hempty]
    · split at h
      · simp only [Except.ok.injEq, Prod.mk.injEq] at h
        obtain ⟨hr, -⟩ := h
        subst hr
        have := parallelLoop_counts env.single env.files
          { success := 0, failed := 0, errors := [] }
        simpa using this
      · rcases hs : PDFToDocxConverter.seqLoop env.single env.files
            { success := 0, failed := 0, errors := [] } with e | r₀ <;>
          rw [hs] at h
        · simp [Except.map] at h
        · simp only [Except.map, Except.ok.injEq, Prod.mk.injEq] at h
          obtain ⟨hr, -⟩ := h
          subst hr
          have := seqLoop_counts env.single env.files _ _ hs
          simpa using this
  · intro hmp hlen
    have hbranch : PDFToDocxConverter.convert_batch env
        = .ok (PDFToDocxConverter.parallelLoop env.single env.files
            { success := 0, failed := 0, errors := [] }, true) := by
      have hne : env.files.isEmpty = false := by
        rcases henv : env.files with _ | ⟨a, rest⟩
        · rw [henv] at hlen; simp at hlen
        · simp
      simp [PDFToDocxConverter.convert_batch, hf, hne, hmp, hlen]
    refine ⟨hbranch, fun f e hfm he => ?_⟩
    exact parallelLoop_records_escape env.single env.files _ f e hfm he

/-- Batch environment on which the claim "any exception escaping a
single-file conversion is caught by the batch orchestrator" fails: a
one-file batch takes the sequential branch (even with
`multi_processing=True`), where `convert_single` is called without a
`try/except`. -/
def envSeqBoom : BatchEnv where
  folderExists := true
  files := ["a.pdf"]
  multi_processing := true
  single := fun _ => .error "boom"

/-- Counterexample to C2 as stated: the exception escaping the single
conversion of "a.pdf" propagates out of `convert_batch` instead of being
caught and recorded; no report is returned at all. -/
theorem C2_counterexample :
    PDFToDocxConverter.convert_batch envSeqBoom = .error "boom" := rfl

/-- Batch environment with two files, the second of which lets an
exception escape, used to witness the amended C2. -/
def envPar : BatchEnv where
  folderExists := true
  files := ["a.pdf", "b.pdf"]
  multi_processing := true
  single := fun f => if f = "a.pdf" then .ok (true, "a.docx") else .error "boom"

/-- Witness for the amended C2 at a concrete two-file parallel batch. -/
theorem C2_witness :
    PDFToDocxConverter.convert_batch envPar
      = .ok (PDFToDocxConverter.parallelLoop envPar.single envPar.files
          { success := 0, failed := 0, errors := [] }, true)
    ∧ ("b.pdf", "boom")
        ∈ (PDFToDocxConverter.parallelLoop envPar.single envPar.files
          { success := 0, failed := 0, errors := [] }).errors :=
  ⟨((C2_batch_isolation envPar rfl).2 rfl (by decide)).1,
   ((C2_batch_isolation envPar rfl).2 rfl (by decide)).2 "b.pdf" "boom"
     (by decide) rfl⟩

/-- C10: when the input folder does not exist, or no file matches the
pattern, `convert_batch` returns the all-zero report without raising,
and the output folder is never touched (the `mkdir` call is not
reached, recorded by the `false` flag). -/
theorem C10_empty_batch (env : BatchEnv)
    (h : env.folderExists = false ∨ env.files = []) :
    PDFToDocxConverter.convert_batch env
      = .ok ({ success := 0, failed := 0, errors := [] }, false) := by
  rcases h with h | h
  · simp [PDFToDocxConverter.convert_batch, h]
  · cases hf : env.folderExists with
    | false => simp [PDFToDocxConverter.convert_batch, hf]
    | true => simp [PDFToDocxConverter.convert_batch, hf, h]

/-- Batch environment whose input folder does not exist, used to witness
C10. -/
def envNoFolder : BatchEnv where
  folderExists := false
  files := ["x.pdf"]
  multi_processing := true
  single := fun _ => .error "never reached"

/-- Witness for C10 at a concrete missing input folder. -/
theorem C10_witness :
    PDFToDocxConverter.convert_batch envNoFolder
      = .ok ({ success := 0, failed := 0, errors := [] }, false) :=
  C10_empty_batch envNoFolder (Or.inl rfl)

/-- Embedding of `get_memory_usage` (src/app.py lines 54–60).  `query` is
the outcome of the `psutil.Process(os.getpid()).memory_info().rss` query
(resident memory in bytes); the bare `except:` clause catches every
failure and returns 0, so the embedded function is total — it returns a
plain rational, never an exception. -/
def get_memory_usage (query : Except String Nat) : ℚ :=
  match query with
  | .error _ => 0
  | .ok rss => (rss : ℚ) / (1024 * 1024)

/-- C8: `get_memory_usage` always returns a (non-negative) numeric value,
and returns 0 whenever the underlying OS query fails; no exception
escapes the monitor (its embedding is a total function into ℚ). -/
theorem C8_get_memory_usage_never_raises (query : Except String Nat) :
    0 ≤ get_memory_usage query
    ∧ (∀ e, query = .error e → get_memory_usage query = 0) := by
  constructor
  · rcases query with e | rss
    · simp [get_memory_usage]
    · simp only [get_memory_usage]
      positivity
  · rintro e rfl
    rfl

/-- Witness for C8 at a concrete failed OS query. -/
theorem C8_witness :
    0 ≤ get_memory_usage (.error "psutil failure")
    ∧ get_memory_usage (.error "psutil failure") = 0 :=
  ⟨(C8_get_memory_usage_never_raises _).1,
   (C8_get_memory_usage_never_raises _).2 "psutil failure" rfl⟩

namespace MemoryOptimizedConverter

/-- Modelled from the spec: the class `MemoryOptimizedConverter` is
imported by `src/app.py` (line 16) and constructed there (lines 42–46),
but its definition is missing from `src/`; only its caller is present.
`is_safe_to_attempt` follows spec §4.2: estimated peak RAM of the
primary strategy is a fixed 10× the input file's on-disk size, and the
check answers "not safe" with a reason describing the estimate versus
the budget exactly when the estimate exceeds the configured budget.
Sizes are megabytes, modelled as rationals. -/
def is_safe_to_attempt (file_size_mb budget_mb : ℚ) : Bool × String :=
  if budget_mb < 10 * file_size_mb then
    (false, "Estimated memory " ++ toString (10 * file_size_mb)
      ++ "MB exceeds budget " ++ toString budget_mb ++ "MB")
  else
    (true, "Estimated memory " ++ toString (10 * file_size_mb)
      ++ "MB within budget " ++ toString budget_mb ++ "MB")

end MemoryOptimizedConverter

/-- C3: the Admission Check returns not-safe iff `10*S > B`, and on
rejection its reason describes the estimate versus the budget. -/
theorem C3_admission_check (S B : ℚ) :
    ((MemoryOptimizedConverter.is_safe_to_attempt S B).1 = false ↔ 10 * S > B)
    ∧ (10 * S > B → (MemoryOptimizedConverter.is_safe_to_attempt S B).2
        = "Estimated memory " ++ toString (10 * S)
          ++ "MB exceeds budget " ++ toString B ++ "MB") := by
  by_cases h : B < 10 * S
  · have he : MemoryOptimizedConverter.is_safe_to_attempt S B
        = (false, "Estimated memory " ++ toString (10 * S)
          ++ "MB exceeds budget " ++ toString B ++ "MB") := by
      unfold MemoryOptimizedConverter.is_safe_to_attempt
      rw [if_pos h]
    rw [he]
    exact ⟨⟨fun _ => h, fun _ => rfl⟩, fun _ => rfl⟩
  · have he : MemoryOptimizedConverter.is_safe_to_attempt S B
        = (true, "Estimated memory " ++ toString (10 * S)
          ++ "MB within budget " ++ toString B ++ "MB") := by
      unfold MemoryOptimizedConverter.is_safe_to_attempt
      rw [if_neg h]
    rw [he]
    exact ⟨⟨fun hc => Bool.noConfusion hc, fun hg => absurd hg h⟩,
      fun hg => absurd hg h⟩

/-- Witness for C3: the spec's own scenario — a 50 MB file against a
400 MB budget is rejected (estimate 500 MB). -/
theorem C3_witness :
    ((MemoryOptimizedConverter.is_safe_to_attempt 50 400).1 = false)
    ∧ (MemoryOptimizedConverter.is_safe_to_attempt 50 400).2
        = "Estimated memory " ++ toString ((10 : ℚ) * 50)
          ++ "MB exceeds budget " ++ toString (400 : ℚ) ++ "MB" :=
  ⟨(C3_admission_check 50 400).1.mpr (by norm_num),
   (C3_admission_check 50 400).2 (by norm_num)⟩

namespace MemoryOptimizedConverter

/-- Observable actions of the conversion orchestrator (spec §4.5): the
admission check, a memory-reclamation pass (a forced `gc.collect`), an
invocation of the primary strategy, an invocation of the lightweight
fallback converter. -/
inductive Event
| admission
| gcPass
| primaryCall (pdf : String)
| fallbackCall (pdf : String)
deriving DecidableEq

/-- Behaviour of the primary conversion strategy (spec §4.3) on a given
request, as observed by the orchestrator: success, a memory-exhaustion
signal or memory-flavoured failure message, or any other failure. -/
inductive PrimaryOutcome
| success
| memoryError (msg : String)
| otherError (msg : String)
deriving DecidableEq

/-- Behaviour of the lightweight fallback converter (spec §4.4): success
with a fidelity-loss warning, or failure with a message. -/
inductive FallbackOutcome
| success (warning : String)
| failure (msg : String)
deriving DecidableEq

/-- Environment of the modelled orchestrator: the filesystem, the input
file's size, the configured budget (`max_memory_mb`, 400 in
src/app.py line 43), the fallback-on-failure flag (`fallback_mode`,
src/app.py line 45), and the behaviours of the two strategies. -/
structure MemEnv where
  inputExists : String → Bool
  fileSizeMB : String → ℚ
  max_memory_mb : ℚ
  fallback_mode : Bool
  primaryOutcome : String → PrimaryOutcome
  fallbackOutcome : String → FallbackOutcome

/-- Result pair produced by the lightweight fallback (spec §4.4). -/
def fallbackResult (env : MemEnv) (pdf_path output_path : String) :
    Bool × String :=
  match env.fallbackOutcome pdf_path with
  | .success _ => (true, output_path)
  | .failure m => (false, m)

/-- Modelled from the spec:
`MemoryOptimizedConverter.convert_with_memory_monitoring` is called at
src/app.py lines 391–395 but its definition is missing from `src/`; the
model follows the sequencing of spec §4.5 steps 1–7: validate the input
path, run the admission check (going directly to the fallback when
unsafe with fallback enabled, failing with the admission reason when
unsafe with fallback disabled), reclaim memory and record a baseline,
run the primary strategy, fall back on a memory-flavoured failure when
enabled, and force a reclamation pass on every exit path before
returning.  Returns the (success, result) pair together with the trace
of observable events. -/
def convert_with_memory_monitoring (env : MemEnv)
    (pdf_path output_path : String) : (Bool × String) × List Event :=
  if env.inputExists pdf_path = false then
    ((false, "File not found: " ++ pdf_path), [.gcPass])
  else if (is_safe_to_attempt (env.fileSizeMB pdf_path) env.max_memory_mb).1
      = false then
    if env.fallback_mode = true then
      (fallbackResult env pdf_path output_path,
        [.admission, .fallbackCall pdf_path, .gcPass])
    else
      ((false, (is_safe_to_attempt (env.fileSizeMB pdf_path) env.max_memory_mb).2),
        [.admission, .gcPass])
  else
    match env.primaryOutcome pdf_path with
    | .success =>
      ((true, output_path), [.admission, .gcPass, .primaryCall pdf_path, .gcPass])
    | .memoryError m =>
      if env.fallback_mode = true then
        (fallbackResult env pdf_path output_path,
          [.admission, .gcPass, .primaryCall pdf_path, .fallbackCall pdf_path, .gcPass])
      else
        ((false, m), [.admission, .gcPass, .primaryCall pdf_path, .gcPass])
    | .otherError m =>
      ((false, m), [.admission, .gcPass, .primaryCall pdf_path, .gcPass])

/-- Whether an event is an invocation of the primary strategy. -/
def isPrimaryEv : Event → Bool
  | .primaryCall _ => true
  | _ => false

/-- Whether a trace contains an invocation of the primary strategy. -/
def invokesPrimary (t : List Event) : Bool := t.any isPrimaryEv

/-- Whether an event is a memory-reclamation pass. -/
def isGcEv : Event → Bool
  | .gcPass => true
  | _ => false

/-- Number of reclamation passes at the very end of a trace — the ones
performed on the exit path, after the conversion outcome is
determined. -/
def trailingGcCount (t : List Event) : Nat :=
  (t.reverse.takeWhile isGcEv).length

end MemoryOptimizedConverter

/-- C4: when the Admission Check rejects the file and fallback is
enabled, the orchestrator goes directly to the lightweight fallback —
its trace is exactly admission, fallback, reclamation — and the primary
strategy is never invoked. -/
theorem C4_admission_reject_skips_primary (env : MemoryOptimizedConverter.MemEnv)
    (pdf_path output_path : String)
    (hin : env.inputExists pdf_path = true)
    (hadm : (MemoryOptimizedConverter.is_safe_to_attempt (env.fileSizeMB pdf_path)
        env.max_memory_mb).1 = false)
    (hfb : env.fallback_mode = true) :
    (MemoryOptimizedConverter.convert_with_memory_monitoring env pdf_path output_path).2
        = [.admission, .fallbackCall pdf_path, .gcPass]
    ∧ MemoryOptimizedConverter.invokesPrimary
        (MemoryOptimizedConverter.convert_with_memory_monitoring env pdf_path output_path).2
      = false := by
  simp [MemoryOptimizedConverter.convert_with_memory_monitoring, hin, hadm, hfb,
    MemoryOptimizedConverter.invokesPrimary, MemoryOptimizedConverter.isPrimaryEv]

/-- Orchestrator environment with the spec's rejection scenario: a 50 MB
input under a 400 MB budget with fallback enabled. -/
def envMem : MemoryOptimizedConverter.MemEnv where
  inputExists := fun _ => true
  fileSizeMB := fun _ => 50
  max_memory_mb := 400
  fallback_mode := true
  primaryOutcome := fun _ => .success
  fallbackOutcome := fun _ => .success "images and complex formatting are not preserved"

/-- Witness for C4 at the spec's 50 MB / 400 MB rejection scenario. -/
theorem C4_witness :
    (MemoryOptimizedConverter.convert_with_memory_monitoring envMem
        "scan.pdf" "scan.docx").2
      = [.admission, .fallbackCall "scan.pdf", .gcPass]
    ∧ MemoryOptimizedConverter.invokesPrimary
        (MemoryOptimizedConverter.convert_with_memory_monitoring envMem
          "scan.pdf" "scan.docx").2
      = false :=
  C4_admission_reject_skips_primary envMem "scan.pdf" "scan.docx" rfl
    ((C3_admission_check 50 400).1.mpr (by norm_num)) rfl

/-- C7: on every exit path of the orchestrator — success, failure or
fallback, whatever branch is taken — exactly one memory-reclamation pass
is performed at the end of the trace, just before the result is
returned. -/
theorem C7_reclamation_once_per_exit_path (env : MemoryOptimizedConverter.MemEnv)
    (pdf_path output_path : String) :
    MemoryOptimizedConverter.trailingGcCount
        (MemoryOptimizedConverter.convert_with_memory_monitoring env
          pdf_path output_path).2
      = 1 := by
  unfold MemoryOptimizedConverter.convert_with_memory_monitoring
  split
  · rfl
  · split
    · split
      · rfl
      · rfl
    · split
      · rfl
      · split
        · rfl
        · rfl
      · rfl

namespace MemoryOptimizedConverter

/-- Events of the modelled memory-constrained batch orchestrator
(spec §4.6): the start and end of one item's single-file conversion, the
inner orchestrator events of that conversion, and the unconditional
memory reclamation between items. -/
inductive BEvent
| beginItem (f : String)
| endItem (f : String)
| conv (e : Event)
| gcBetween
deriving DecidableEq

/-- Whether a batch event starts an item's conversion. -/
def isBeginEv : BEvent → Bool
  | .beginItem _ => true
  | _ => false

/-- Whether a batch event finishes an item's conversion. -/
def isEndEv : BEvent → Bool
  | .endItem _ => true
  | _ => false

/-- Trace block of one batch item: the item's conversion runs from its
`beginItem` to its `endItem`, followed by the between-items reclamation
pass. -/
def itemBlock (env : MemEnv) (outOf : String → String) (f : String) :
    List BEvent :=
  BEvent.beginItem f ::
    ((convert_with_memory_monitoring env f (outOf f)).2.map BEvent.conv
      ++ [BEvent.endItem f, BEvent.gcBetween])

/-- Modelled from the spec: the memory-constrained batch mode of
`MemoryOptimizedConverter` is described in spec §4.6 but its code is
missing from `src/` (only the single-conversion call site in
`src/app.py` is present).  Per §4.6, under a memory budget the batch
"is strictly sequential" with "parallelism deliberately disabled": it
iterates the discovered files in order, runs the single-conversion
orchestrator on each and reclaims memory between items, so the batch
trace is the in-order concatenation of the item blocks. -/
def convert_batch_memory (env : MemEnv) (files : List String)
    (outOf : String → String) : List BEvent :=
  (files.map (itemBlock env outOf)).flatten

/-- Number of item conversions in flight after the events `t`:
conversions begun minus conversions finished. -/
def openCount (t : List BEvent) : ℤ :=
  (t.countP isBeginEv : ℤ) - (t.countP isEndEv : ℤ)

end MemoryOptimizedConverter

/-- Decomposition of a prefix of an append. -/
theorem prefix_append_cases {α : Type} (a b p : List α) (h : p <+: a ++ b) :
    p <+: a ∨ ∃ q, p = a ++ q ∧ q <+: b := by
  induction a generalizing p with
  | nil =>
    exact Or.inr ⟨p, rfl, by simpa using h⟩
  | cons x a ih =>
    rcases List.prefix_cons_iff.mp h with rfl | ⟨t, rfl, ht⟩
    · exact Or.inl List.nil_prefix
    · rcases ih t ht with h1 | ⟨q, rfl, hq⟩
      · exact Or.inl (List.cons_prefix_cons.mpr ⟨rfl, h1⟩)
      · exact Or.inr ⟨q, rfl, hq⟩

/-- The inner orchestrator events of an item block contain no begin or
end marker. -/
theorem itemBlock_tail_counts (env : MemoryOptimizedConverter.MemEnv)
    (outOf : String → String) (f : String) :
    ((MemoryOptimizedConverter.convert_with_memory_monitoring env f
        (outOf f)).2.map MemoryOptimizedConverter.BEvent.conv
      ++ [MemoryOptimizedConverter.BEvent.endItem f,
          MemoryOptimizedConverter.BEvent.gcBetween]).countP
        MemoryOptimizedConverter.isBeginEv = 0 := by
  rw [List.countP_append, List.countP_map]
  have h1 : List.countP
      (MemoryOptimizedConverter.isBeginEv ∘ MemoryOptimizedConverter.BEvent.conv)
      (MemoryOptimizedConverter.convert_with_memory_monitoring env f (outOf f)).2
      = 0 := by
    apply List.countP_eq_zero.mpr
    intro e _
    simp [MemoryOptimizedConverter.isBeginEv]
  rw [h1]
  rfl

/-- A prefix of one item block never has more than one conversion in
flight. -/
theorem itemBlock_prefix_bound (env : MemoryOptimizedConverter.MemEnv)
    (outOf : String → String) (f : String) (p : List MemoryOptimizedConverter.BEvent)
    (hp : p <+: MemoryOptimizedConverter.itemBlock env outOf f) :
    MemoryOptimizedConverter.openCount p ≤ 1 := by
  unfold MemoryOptimizedConverter.itemBlock at hp
  rcases List.prefix_cons_iff.mp hp with rfl | ⟨t, rfl, ht⟩
  · simp [MemoryOptimizedConverter.openCount]
  · have hcount : t.countP MemoryOptimizedConverter.isBeginEv = 0 := by
      have hle := List.IsPrefix.countP_le (p := MemoryOptimizedConverter.isBeginEv) ht
      rw [itemBlock_tail_counts env outOf f] at hle
      omega
    unfold MemoryOptimizedConverter.openCount
    rw [List.countP_cons, List.countP_cons, hcount]
    simp [MemoryOptimizedConverter.isBeginEv, MemoryOptimizedConverter.isEndEv]

/-- A whole item block begins and ends exactly one conversion. -/
theorem itemBlock_counts (env : MemoryOptimizedConverter.MemEnv)
    (outOf : String → String) (f : String) :
    (MemoryOptimizedConverter.itemBlock env outOf f).countP
        MemoryOptimizedConverter.isBeginEv = 1
    ∧ (MemoryOptimizedConverter.itemBlock env outOf f).countP
        MemoryOptimizedConverter.isEndEv = 1 := by
  constructor
  · unfold MemoryOptimizedConverter.itemBlock
    rw [List.countP_cons, itemBlock_tail_counts env outOf f]
    simp [MemoryOptimizedConverter.isBeginEv]
  · unfold MemoryOptimizedConverter.itemBlock
    rw [List.countP_cons, List.countP_append, List.countP_map]
    have h1 : List.countP
        (MemoryOptimizedConverter.isEndEv ∘ MemoryOptimizedConverter.BEvent.conv)
        (MemoryOptimizedConverter.convert_with_memory_monitoring env f (outOf f)).2
        = 0 := by
      apply List.countP_eq_zero.mpr
      intro e _
      simp [MemoryOptimizedConverter.isEndEv]
    rw [h1]
    simp [MemoryOptimizedConverter.isEndEv, MemoryOptimizedConverter.isBeginEv]

/-- C6: in the modelled memory-constrained batch run, processing is
strictly sequential — at every point of the batch trace at most one
single-file conversion (and hence at most one primary-strategy
invocation) is in flight. -/
theorem C6_memory_batch_sequential (env : MemoryOptimizedConverter.MemEnv)
    (files : List String) (outOf : String → String)
    (p : List MemoryOptimizedConverter.BEvent)
    (hp : p <+: MemoryOptimizedConverter.convert_batch_memory env files outOf) :
    MemoryOptimizedConverter.openCount p ≤ 1 := by
  induction files generalizing p with
  | nil =>
    unfold MemoryOptimizedConverter.convert_batch_memory at hp
    simp only [List.map_nil, List.flatten_nil] at hp
    rw [List.prefix_nil.mp hp]
    simp [MemoryOptimizedConverter.openCount]
  | cons f rest ih =>
    unfold MemoryOptimizedConverter.convert_batch_memory at hp ih
    simp only [List.map_cons, List.flatten_cons] at hp
    rcases prefix_append_cases _ _ _ hp with hpre | ⟨q, rfl, hq⟩
    · exact itemBlock_prefix_bound env outOf f p hpre
    · have hopen : MemoryOptimizedConverter.openCount
          (MemoryOptimizedConverter.itemBlock env outOf f ++ q)
          = MemoryOptimizedConverter.openCount q := by
        unfold MemoryOptimizedConverter.openCount
        rw [List.countP_append, List.countP_append,
          (itemBlock_counts env outOf f).1, (itemBlock_counts env outOf f).2]
        push_cast
        ring
      rw [hopen]
      exact ih q hq

/-- Witness for C6: the full trace of a concrete two-file batch never has
more than one conversion in flight. -/
theorem C6_witness :
    MemoryOptimizedConverter.openCount
        (MemoryOptimizedConverter.convert_batch_memory envMem
          ["a.pdf", "b.pdf"] (fun f => f))
      ≤ 1 :=
  C6_memory_batch_sequential envMem ["a.pdf", "b.pdf"] (fun f => f) _
    (List.prefix_refl _)

end Pdf2Docx
